import Mathlib

/-!
Shallow embedding of the YouTube analysis service
(src/youtube_analysis_main.js) for verifying its natural-language
specification.  Text is modelled as `List Char` (JS strings over the
ASCII range used by the program), JS numbers as exact rationals `ℚ`
(the scores involved are small sums of 0.1/0.2 increments whose
comparisons against 0.5 / 80 / 2 agree between IEEE doubles and exact
rationals), and fallible JS code as `Except`/explicit outcome types.
-/

namespace YTA

/-- JS text, modelled as a list of characters. -/
abbrev Text := List Char

/-- Does `hay` start with `needle`?  (character-wise comparison). -/
def startsWithL : Text → Text → Bool
  | [], _ => true
  | _ :: _, [] => false
  | c :: cs, d :: ds => (c == d) && startsWithL cs ds

/-- Index of the first occurrence of `needle` in `hay`, if any. -/
def findSub (needle : Text) : Text → Option Nat
  | [] => if needle.isEmpty then some 0 else none
  | d :: ds =>
    if startsWithL needle (d :: ds) then some 0
    else (findSub needle ds).map (fun k => k + 1)

/-- Substring test: does `needle` occur anywhere in `hay`? -/
def hasSub (needle hay : Text) : Bool := (findSub needle hay).isSome

/-- ASCII lower-casing, the model of JS `String.prototype.toLowerCase`
on the ASCII texts this program handles. -/
def lowerText (t : Text) : Text := t.map Char.toLower

/-- Strip the literal `lit` from the front of `s`, returning the rest. -/
def stripLit : Text → Text → Option Text
  | [], s => some s
  | _ :: _, [] => none
  | c :: cs, d :: ds => if c == d then stripLit cs ds else none

/-- A character of the JS regex class `[\w-]`. -/
def wordOrHyphen (c : Char) : Bool := c.isAlphanum || c == '_' || c == '-'

/-- Does `s` begin with a `[\w-]` character (model of a trailing
`[\w-]+` in an unanchored-at-the-end regex: one such character
suffices, anything may follow)? -/
def headIsWord (s : Text) : Bool :=
  match s with
  | c :: _ => wordOrHyphen c
  | [] => false

/-- All ways the regex piece `^https?:\/\/` can consume a prefix of `s`
(the optional `s` gives up to two alternatives, as regex backtracking
would try). -/
def afterScheme (s : Text) : List Text :=
  match stripLit "http".toList s with
  | none => []
  | some r1 =>
    let withS : List Text :=
      match stripLit "s".toList r1 with
      | some r2 => [r2]
      | none => []
    (withS ++ [r1]).filterMap (fun r => stripLit "://".toList r)

/-- All ways the regex piece `(www\.)?` can consume a prefix of `s`. -/
def afterOptWWW (s : Text) : List Text :=
  match stripLit "www.".toList s with
  | some r => [r, s]
  | none => [s]

/-- Model of `validateYouTubeUrl` (src/youtube_analysis_main.js:39-46):
the three unanchored-at-the-end JS regexes
`^https?:\/\/(www\.)?youtube\.com\/watch\?v=[\w-]+`,
`^https?:\/\/youtu\.be\/[\w-]+`,
`^https?:\/\/(www\.)?youtube\.com\/embed\/[\w-]+`,
tested with `Array.prototype.some`. -/
def validateYouTubeUrl (s : Text) : Bool :=
  let watch := (afterScheme s).any (fun r =>
    (afterOptWWW r).any (fun r2 =>
      match stripLit "youtube.com/watch?v=".toList r2 with
      | some r3 => headIsWord r3
      | none => false))
  let short := (afterScheme s).any (fun r =>
    match stripLit "youtu.be/".toList r with
    | some r2 => headIsWord r2
    | none => false)
  let embed := (afterScheme s).any (fun r =>
    (afterOptWWW r).any (fun r2 =>
      match stripLit "youtube.com/embed/".toList r2 with
      | some r3 => headIsWord r3
      | none => false))
  watch || short || embed

/-- The accepted-link-shape grammar exactly as the spec words it
(spec §6): one of `https://(www.)?youtube.com/watch?v=<id>`,
`https://youtu.be/<id>`, `https://(www.)?youtube.com/embed/<id>`,
where `<id>` is one-or-more word/hyphen characters (the whole string
has one of these shapes; the scheme is literally `https`).  This is a
spec-side definition, kept distinct from `validateYouTubeUrl`, for
comparing the two. -/
def specLinkShape (s : Text) : Bool :=
  let idTail := fun (r : Text) => !r.isEmpty && r.all wordOrHyphen
  let tail3 :=
    match stripLit "https://".toList s with
    | some r => (afterOptWWW r).any (fun r2 =>
        (match stripLit "youtube.com/watch?v=".toList r2 with
         | some r3 => idTail r3
         | none => false)
        || (match stripLit "youtube.com/embed/".toList r2 with
            | some r3 => idTail r3
            | none => false))
      || (match stripLit "youtu.be/".toList r with
          | some r2 => idTail r2
          | none => false)
    | none => false
  tail3

/-! ## AI-detection verdicts -/

/-- Classification labels of a detection verdict. -/
inductive Classification
  | human
  | ai
  | insufficientText
  | error
deriving DecidableEq, Repr

/-- The `method` tag a verdict can carry. -/
inductive Method
  | gptzeroFree
  | patternBased
  | skipped
deriving DecidableEq, Repr

/-- An AI-detection verdict, the object shape the three detector
functions and the per-segment error handler build.  `method` is `none`
on the error verdict built inside `processTranscript` (that object has
no `method` field); `indicators_found` is present only on the
pattern-based verdict; `errMsg` models the `error` field of the error
verdict. -/
structure Verdict where
  ai_probability : ℚ
  classification : Classification
  confidence : ℚ
  method : Option Method
  indicators_found : Option Nat
  errMsg : Option String
deriving DecidableEq, Repr

/-! ## Pattern-based detector (src/youtube_analysis_main.js:200-252)

The ten `aiIndicators` are JS regex objects with the `g` flag created
fresh on every call of `detectAIWithPatterns`.  A `g`-flagged regex is
stateful: `test` searches from `lastIndex`, sets `lastIndex` past the
match on success and resets it to 0 on failure.  Each regex here is
tested twice per call (once in the scoring `forEach`, once in the
`indicators_found` filter), so the second test searches only after the
first match.  `GRegex`/`testG` model this statefulness exactly; the
patterns themselves are literal phrases, and the `i` flag is modelled
by matching lower-cased pattern against lower-cased input. -/

/-- `Math.min` on two JS numbers, written out so that it evaluates by
kernel reduction. -/
def ratMin (a b : ℚ) : ℚ := if a ≤ b then a else b

/-- A `g`-flagged JS regex over a literal pattern: the pattern plus its
mutable `lastIndex`. -/
structure GRegex where
  pat : Text
  lastIndex : Nat
deriving DecidableEq

/-- `RegExp.prototype.test` for a `g`-flagged literal-pattern regex:
search from `lastIndex`; on a match ending at `e`, return `true` with
`lastIndex := e`; on failure return `false` with `lastIndex := 0`. -/
def testG (r : GRegex) (input : Text) : Bool × GRegex :=
  match findSub r.pat (input.drop r.lastIndex) with
  | some k => (true, ⟨r.pat, r.lastIndex + k + r.pat.length⟩)
  | none => (false, ⟨r.pat, 0⟩)

/-- The ten AI-indicator phrases (lower-case literals of the
case-insensitive regexes at src/youtube_analysis_main.js:203-214). -/
def aiIndicators : List Text :=
  ["as an ai".toList,
   "i am an artificial intelligence".toList,
   "i don\x27t have personal".toList,
   "i cannot feel".toList,
   "furthermore".toList,
   "in conclusion".toList,
   "it\x27s worth noting".toList,
   "additionally".toList,
   "moreover".toList,
   "consequently".toList]

/-- Helper for `maxRunsNot`: returns the run of non-`p` characters at
the front of the text together with the maximal non-`p` runs of the
remainder. -/
def runsAux (p : Char → Bool) : Text → Text × List Text
  | [] => ([], [])
  | c :: cs =>
    let (cur, rs) := runsAux p cs
    if p c then ([], if cur.isEmpty then rs else cur :: rs)
    else (c :: cur, rs)

/-- Maximal runs of characters not satisfying `p` — the non-delimiter
pieces of a JS `split` on the regex `[delims]+`. -/
def maxRunsNot (p : Char → Bool) (t : Text) : List Text :=
  let (cur, rs) := runsAux p t
  if cur.isEmpty then rs else cur :: rs

/-- Sentence-terminating characters, the class `[.!?]`. -/
def isSentenceEnd (c : Char) : Bool := c == '.' || c == '!' || c == '?'

/-- The sentence list of `detectAIWithPatterns`:
`text.split(/[.!?]+/).filter(s => s.trim().length > 0)`.  The empty
pieces a JS `split` can produce at the two ends are removed by the
trim filter, so the result is exactly the maximal runs of
non-terminator characters that contain a non-whitespace character. -/
def sentencesOf (t : Text) : List Text :=
  (maxRunsNot isSentenceEnd t).filter (fun r => r.any (fun c => !c.isWhitespace))

/-- The long-sentence signal `avgSentenceLength > 80`.  In the source
the average is `sum / sentences.length`; when the sentence list is
empty this divides 0 by 0, yielding `NaN`, and `NaN > 80` is `false` —
rendered here as the `length ≠ 0` conjunct.  For a nonempty list,
`sum / len > 80` over the integers involved is `sum > 80 * len`. -/
def longSentenceSignal (t : Text) : Bool :=
  let sentences := sentencesOf t
  decide (sentences.length ≠ 0) &&
    decide ((sentences.map List.length).sum > 80 * sentences.length)

/-- JS `String.prototype.split(/\s+/)`: the maximal non-whitespace
runs, plus an empty leading piece when the string starts with
whitespace, an empty trailing piece when it ends with whitespace, and
`[""]` for the empty string (the regex does not match it).  The empty
pieces count toward `words.length` and contribute `""` to the
unique-word set, exactly as in the source. -/
def jsSplitWs (s : Text) : List Text :=
  match s with
  | [] => [[]]
  | c :: _ =>
    let core := maxRunsNot Char.isWhitespace s
    let withLead := if c.isWhitespace then [] :: core else core
    if (s.getLast?.map Char.isWhitespace).getD false
    then withLead ++ [[]]
    else withLead

/-- The repetition signal `repetitionRatio > 2` where
`repetitionRatio = words.length / uniqueWords.size` over
`words = text.toLowerCase().split(/\s+/)`.  `words` is never empty, so
the division is by a positive integer and `w / u > 2 ↔ w > 2 * u`. -/
def repetitionSignal (t : Text) : Bool :=
  let words := jsSplitWs (lowerText t)
  decide (words.length > 2 * words.dedup.length)

/-- Model of `detectAIWithPatterns`
(src/youtube_analysis_main.js:200-252).  Score: +0.2 per indicator
pattern whose (fresh) first `test` matches, +0.1 for the long-sentence
signal, +0.1 for the repetition signal; probability is the score
capped at 1; classification is `ai` iff probability > 0.5;
`indicators_found` re-tests the same (now stateful) regex objects. -/
def detectAIWithPatterns (t : Text) : Verdict :=
  let low := lowerText t
  let pass1 := aiIndicators.map (fun p => testG ⟨p, 0⟩ low)
  let aiScore : ℚ :=
    (pass1.countP (fun pr => pr.1) : ℚ) * (1 / 5)
      + (if longSentenceSignal t then 1 / 10 else 0)
      + (if repetitionSignal t then 1 / 10 else 0)
  let aiProbability := ratMin aiScore 1
  { ai_probability := aiProbability
    classification := if aiProbability > 1 / 2 then .ai else .human
    confidence := 3 / 5
    method := some .patternBased
    indicators_found := some (pass1.countP (fun pr => (testG pr.2 low).1))
    errMsg := none }

/-- Spec-side count of AI-indicator phrases occurring in the text: the
number of the ten phrases that occur (case-insensitively) as a
substring.  Defined from the spec's words, to be compared with the
first scoring pass of `detectAIWithPatterns`. -/
def matchedIndicatorCount (t : Text) : Nat :=
  aiIndicators.countP (fun p => hasSub p (lowerText t))

/-- The spec's description of the heuristic score: a weighted sum of
0.2 per matched AI-disclosure phrase, 0.1 for the long-sentence
signal, 0.1 for the repetition signal. -/
def patScore (t : Text) : ℚ :=
  (matchedIndicatorCount t : ℚ) * (1 / 5)
    + (if longSentenceSignal t then 1 / 10 else 0)
    + (if repetitionSignal t then 1 / 10 else 0)

/-! ## GPTZero primary detector and the chain (src:153-197, 255-273) -/

/-- The relevant fields of `response.data.documents[0]` from the
hosted GPTZero API. -/
structure GptzeroDoc where
  average_generated_prob : Option ℚ
  completely_generated_prob : Option ℚ
  confidence : Option ℚ
deriving DecidableEq

/-- One call's outcome at the primary (hosted GPTZero) boundary:
a 2xx response (whose `documents[0]` may be absent), an HTTP 429
rate-limit error, or any other error/exception thrown by the call. -/
inductive PrimaryOutcome
  | ok (doc : Option GptzeroDoc)
  | rateLimited
  | failure
deriving DecidableEq

/-- The hosted detector's declared contract: when a call returns a
document, any probability it reports lies in [0,1].  Failing outcomes
are unconstrained. -/
def outcomeConformant : PrimaryOutcome → Prop
  | .ok (some d) => ∀ q ∈ d.average_generated_prob, 0 ≤ q ∧ q ≤ 1
  | _ => True

/-- JS `x || d` for an optional numeric field `x`: `d` when the field
is absent or `0` (falsy), the value otherwise. -/
def jsOr (x : Option ℚ) (d : ℚ) : ℚ :=
  match x with
  | some q => if q = 0 then d else q
  | none => d

/-- Which detector backends a call of the chain exercised. -/
inductive DetectorCall
  | primary
  | fallbackHeuristic
deriving DecidableEq

/-- Model of `detectAIWithGPTZeroFree`
(src/youtube_analysis_main.js:153-197), instrumented with the list of
detector backends exercised.  On a response, builds a verdict from the
response fields (`|| 0`, `> 0.5 ? ai : human`, `|| 0.8`); on a 429 or
any other error the `catch` falls through to the pattern-based
detector.  Every exception point of the function body is inside the
`try`, so the function itself never throws. -/
def detectAIWithGPTZeroFree (o : PrimaryOutcome) (t : Text) :
    Verdict × List DetectorCall :=
  match o with
  | .ok doc =>
    ({ ai_probability := jsOr (doc.bind (fun d => d.average_generated_prob)) 0
       classification :=
         if (doc.bind (fun d => d.completely_generated_prob)).getD 0 > 1 / 2
         then .ai else .human
       confidence := jsOr (doc.bind (fun d => d.confidence)) (4 / 5)
       method := some .gptzeroFree
       indicators_found := none
       errMsg := none }, [.primary])
  | .rateLimited => (detectAIWithPatterns t, [.primary, .fallbackHeuristic])
  | .failure => (detectAIWithPatterns t, [.primary, .fallbackHeuristic])

/-- The short-circuit verdict for text below the minimum length. -/
def skippedVerdict : Verdict :=
  { ai_probability := 0
    classification := .insufficientText
    confidence := 0
    method := some .skipped
    indicators_found := none
    errMsg := none }

/-- Model of `detectAI` (src/youtube_analysis_main.js:255-273),
instrumented with the detector backends exercised: text shorter than
10 characters short-circuits with `skippedVerdict` and no detector
call; otherwise the chain runs.  (`detectAIWithGPTZeroFree` is total —
its `catch` covers every exception point — so the outer `catch` at
src:269-272 is unreachable; were it reached it would likewise fall to
the pattern-based detector.) -/
def detectAI (o : PrimaryOutcome) (t : Text) : Verdict × List DetectorCall :=
  if t.length < 10 then (skippedVerdict, [])
  else detectAIWithGPTZeroFree o t

/-! ## Transcript annotator (src/youtube_analysis_main.js:276-316) -/

/-- A transcript segment: the transcription payload plus, after
annotation, an attached verdict. -/
structure Segment where
  text : Text
  startTime : ℚ
  endTime : ℚ
  speaker : Option String
  ai_detection : Option Verdict
deriving DecidableEq

/-- A transcription response: an optional segment array plus the other
response fields, carried opaquely (the code spreads them through
unchanged). -/
structure Transcript where
  segments : Option (List Segment)
  meta : String
deriving DecidableEq

/-- The error verdict `processTranscript` attaches when a detector
call throws (that object literal has no `method` field). -/
def errorVerdict (m : String) : Verdict :=
  { ai_probability := 0
    classification := .error
    confidence := 0
    method := none
    indicators_found := none
    errMsg := some m }

/-- One loop iteration of `processTranscript`: call the detector on
the segment text; on success attach the verdict, on a thrown error
attach the error verdict.  The detector argument captures the whole
`detectAI` call as the claim requires — including the possibility that
the call throws. -/
def processSegment (det : Text → Except String Verdict) (s : Segment) : Segment :=
  match det s.text with
  | .ok v => { s with ai_detection := some v }
  | .error m => { s with ai_detection := some (errorVerdict m) }

/-- Model of `processTranscript` (src/youtube_analysis_main.js:276-316):
with no `segments` field the transcript is returned unchanged
(`!transcript.segments`; an empty array is truthy in JS, so it takes
the loop path and maps over zero segments); otherwise each segment is
processed in order and the segment array replaced.  The inter-segment
pacing delay has no effect on the produced data and is not modelled. -/
def processTranscript (det : Text → Except String Verdict) (t : Transcript) :
    Transcript :=
  match t.segments with
  | none => t
  | some segs => { t with segments := some (segs.map (processSegment det)) }

/-- A segment with its verdict forgotten — the part of a segment that
annotation must preserve. -/
def eraseDet (s : Segment) : Segment := { s with ai_detection := none }

/-! ## Orchestrator (src/youtube_analysis_main.js:336-407, 486-574) -/

/-- Terminal job states. -/
inductive JobStatus
  | completed
  | failed
deriving DecidableEq, Repr

/-- The processing summary of a completed record.  In the source
`average_ai_probability` is `segments?.reduce(...)/(segments?.length || 1)`;
when the transcript has no `segments` field this is `undefined / 1 = NaN`,
modelled as `none`. -/
structure Summary where
  total_segments : Nat
  ai_segments : Nat
  human_segments : Nat
  average_ai_probability : Option ℚ
deriving DecidableEq

/-- A terminal job record as written to `./results/<jobId>.json`:
the completed shape (src:365-379) or the failed shape (src:395-402).
Fields absent from a shape are `none`. -/
structure JobRecord where
  job_id : String
  timestamp : String
  youtube_url : String
  screenshot_path : Option String
  audio_path : Option String
  transcript : Option Transcript
  processing_summary : Option Summary
  status : JobStatus
  error : Option String
deriving DecidableEq

/-- The test `s.ai_detection?.classification === c` used by the
summary's filters. -/
def isClassified (c : Classification) (s : Segment) : Bool :=
  match s.ai_detection with
  | some v => v.classification == c
  | none => false

/-- The summary computed at src:372-377 from the processed transcript. -/
def mkSummary (t : Transcript) : Summary :=
  let segs := t.segments.getD []
  { total_segments := segs.length
    ai_segments := segs.countP (isClassified .ai)
    human_segments := segs.countP (isClassified .human)
    average_ai_probability :=
      match t.segments with
      | none => none
      | some segs =>
        some ((segs.map (fun s =>
            match s.ai_detection with
            | some v => if v.ai_probability = 0 then 0 else v.ai_probability
            | none => 0)).sum
          / (if segs.length = 0 then 1 else (segs.length : ℚ))) }

/-- The four pipeline stages. -/
inductive Stage
  | screenshot
  | audio
  | transcribe
  | annotate
deriving DecidableEq, Repr

/-- One run's behavior of the external capabilities: the outcome of
each adapter call (error value = the thrown error's message) and the
primary detector's per-text behavior. -/
structure PipelineEnv where
  screenshot : Except String Unit
  audio : Except String Unit
  transcribe : Except String Transcript
  primary : Text → PrimaryOutcome

/-- The failed record shape (src:395-402): only identity, timestamp,
URL, status and error — no artifact paths, no transcript, no summary. -/
def failedRecord (jobId timestamp url msg : String) : JobRecord :=
  { job_id := jobId
    timestamp := timestamp
    youtube_url := url
    screenshot_path := none
    audio_path := none
    transcript := none
    processing_summary := none
    status := .failed
    error := some msg }

/-- Model of `analyzeVideo` (src/youtube_analysis_main.js:336-407),
returning the terminal record it writes together with the list of
stages it actually ran.  Each stage runs only if every earlier stage
succeeded; the first failure aborts the run and produces the failed
record carrying that failure's message.  `jobId` is the uuid the
function generates for itself at src:337, passed here explicitly. -/
def analyzeVideo (env : PipelineEnv) (jobId timestamp url : String) :
    JobRecord × List Stage :=
  match env.screenshot with
  | .error m => (failedRecord jobId timestamp url m, [.screenshot])
  | .ok _ =>
    match env.audio with
    | .error m => (failedRecord jobId timestamp url m, [.screenshot, .audio])
    | .ok _ =>
      match env.transcribe with
      | .error m =>
        (failedRecord jobId timestamp url m, [.screenshot, .audio, .transcribe])
      | .ok transcript =>
        let processed :=
          processTranscript
            (fun txt => .ok (detectAI (env.primary txt) txt).1) transcript
        ({ job_id := jobId
           timestamp := timestamp
           youtube_url := url
           screenshot_path := some ("/screenshots/" ++ jobId ++ ".png")
           audio_path := some ("/audio/" ++ jobId ++ ".wav")
           transcript := some processed
           processing_summary := some (mkSummary processed)
           status := .completed
           error := none },
         [.screenshot, .audio, .transcribe, .annotate])

/-- The result store: the `./results` directory, keyed by job id. -/
def Store := String → Option JobRecord

/-- A store with no records. -/
def emptyStore : Store := fun _ => none

/-- Writing a record file `./results/<id>.json`. -/
def putRecord (st : Store) (id : String) (r : JobRecord) : Store :=
  fun k => if k = id then some r else st k

/-- The store after a submitted job's background run terminates:
`analyzeVideo` writes its record under the job id it generated for
itself (`id2`). -/
def runBackground (env : PipelineEnv) (id2 timestamp url : String)
    (st : Store) : Store :=
  putRecord st id2 (analyzeVideo env id2 timestamp url).1

/-- Response of `GET /result/:id` (src:522-542): the stored record, or
404 `NotFound` when no record file exists. -/
inductive ResultResponse
  | notFound
  | found (r : JobRecord)
deriving DecidableEq

/-- Model of `GET /result/:id`. -/
def getResult (st : Store) (id : String) : ResultResponse :=
  match st id with
  | some r => .found r
  | none => .notFound

/-- The state reported by `GET /status/:id`. -/
inductive ReportedState
  | processing
  | completed
  | failed
deriving DecidableEq, Repr

/-- The body of a `GET /status/:id` response (src:544-574). -/
structure StatusResponse where
  job_id : String
  status : ReportedState
  timestamp : Option String
  progress : Nat
deriving DecidableEq

/-- Model of `GET /status/:id`: with a record file, report its status
and timestamp (progress 100 when completed, else 50); with none — an
in-flight or never-submitted id — report `processing` with progress
25.  Total: every id gets a 200 response. -/
def getStatus (st : Store) (id : String) : StatusResponse :=
  match st id with
  | some r =>
    { job_id := id
      status := match r.status with
        | .completed => .completed
        | .failed => .failed
      timestamp := some r.timestamp
      progress := if r.status == .completed then 100 else 50 }
  | none =>
    { job_id := id
      status := .processing
      timestamp := none
      progress := 25 }

/-- Responses of `POST /analyze` (src:486-520). -/
inductive SubmitResponse
  | missingUrl
  | invalidFormat
  | notAccessible
  | accepted (job_id : String)
deriving DecidableEq

/-- Model of the `POST /analyze` handler (src:486-520): reject an
empty/missing URL, then a URL failing `validateYouTubeUrl`, then one
failing the external `ytdl.validateURL` check (an external library,
passed as an oracle); otherwise answer with a fresh job id (`id1`,
generated at src:502) and state `processing`, and schedule the
background run.  The second component records whether background work
was scheduled. -/
def analyzeHandler (ytdlValidate : String → Bool) (id1 : String)
    (url : String) : SubmitResponse × Bool :=
  if url = "" then (.missingUrl, false)
  else if !validateYouTubeUrl url.toList then (.invalidFormat, false)
  else if !ytdlValidate url then (.notAccessible, false)
  else (.accepted id1, true)

/-! ## Concrete fixtures used by the witness theorems -/

/-- A bare transcription segment with the given text. -/
def mkSeg (txt : Text) : Segment :=
  { text := txt, startTime := 0, endTime := 1, speaker := none, ai_detection := none }

/-- A two-segment transcript. -/
def wTranscript : Transcript :=
  { segments := some [mkSeg "furthermore this is a test".toList,
                      mkSeg "hello there".toList]
    meta := "en" }

/-- A detector whose every call throws. -/
def wFailDet : Text → Except String Verdict := fun _ => .error "boom"

/-- A text containing three AI-disclosure phrases. -/
def wAiText : Text := "furthermore, additionally, moreover: yes.".toList

/-- A text of ten spaces: at the minimum length threshold, yet with no
sentence-terminating punctuation and no non-whitespace content. -/
def wBlankText : Text := "          ".toList

/-- A pipeline run in which every adapter succeeds and the hosted
detector is unreachable (so the heuristic fallback is exercised). -/
def wEnvOk : PipelineEnv :=
  { screenshot := .ok ()
    audio := .ok ()
    transcribe := .ok wTranscript
    primary := fun _ => .failure }

/-- A pipeline run in which the screenshot stage fails. -/
def wEnvShotFail : PipelineEnv :=
  { screenshot := .error "Failed to take screenshot: timeout"
    audio := .ok ()
    transcribe := .ok wTranscript
    primary := fun _ => .failure }

-- Sanity checks mirroring the URL sets in the repository's own test file.
example : validateYouTubeUrl "https://www.youtube.com/watch?v=dQw4w9WgXcQ".toList = true := by decide
example : validateYouTubeUrl "https://youtube.com/watch?v=dQw4w9WgXcQ".toList = true := by decide
example : validateYouTubeUrl "https://youtu.be/dQw4w9WgXcQ".toList = true := by decide
example : validateYouTubeUrl "https://www.youtube.com/embed/dQw4w9WgXcQ".toList = true := by decide
example : validateYouTubeUrl "https://example.com".toList = false := by decide
example : validateYouTubeUrl "https://vimeo.com/123456".toList = false := by decide
example : validateYouTubeUrl "not-a-url".toList = false := by decide
example : validateYouTubeUrl "https://youtube.com".toList = false := by decide
example : validateYouTubeUrl "https://www.youtube.com/user/test".toList = false := by decide

/-! ## Helper lemmas -/

/-- A first `test` of a fresh `g`-flagged literal regex is plain
substring search. -/
theorem testG_fst (p input : Text) : (testG ⟨p, 0⟩ input).1 = hasSub p input := by
  simp only [testG, hasSub, List.drop_zero]
  cases findSub p input <;> rfl

/-- The first scoring pass of `detectAIWithPatterns` counts exactly
the indicator phrases occurring in the text. -/
theorem firstPassCount (t : Text) :
    (aiIndicators.map (fun p => testG ⟨p, 0⟩ (lowerText t))).countP (fun pr => pr.1)
      = matchedIndicatorCount t := by
  rw [List.countP_map, matchedIndicatorCount]
  refine List.countP_congr (fun p _ => ?_)
  simp [Function.comp, testG_fst]

/-- Field-level description of the pattern-based verdict. -/
theorem patterns_fields (t : Text) :
    (detectAIWithPatterns t).ai_probability = ratMin (patScore t) 1
    ∧ (detectAIWithPatterns t).classification
        = (if ratMin (patScore t) 1 > 1 / 2 then .ai else .human)
    ∧ (detectAIWithPatterns t).confidence = 3 / 5
    ∧ (detectAIWithPatterns t).method = some .patternBased
    ∧ (detectAIWithPatterns t).errMsg = none := by
  have h : ((aiIndicators.map (fun p => testG ⟨p, 0⟩ (lowerText t))).countP
      (fun pr => pr.1) : ℚ) * (1 / 5)
        + (if longSentenceSignal t then 1 / 10 else 0)
        + (if repetitionSignal t then 1 / 10 else 0) = patScore t := by
    rw [firstPassCount, patScore]
  refine ⟨?_, ?_, rfl, rfl, rfl⟩ <;>
    simp only [detectAIWithPatterns, h]

/-- The pattern-based probability lies in [0,1]. -/
theorem patterns_prob_bounds (t : Text) :
    0 ≤ (detectAIWithPatterns t).ai_probability
    ∧ (detectAIWithPatterns t).ai_probability ≤ 1 := by
  rw [(patterns_fields t).1, ratMin]
  have h0 : 0 ≤ patScore t := by
    rw [patScore]
    have h1 : (0 : ℚ) ≤ (matchedIndicatorCount t : ℚ) * (1 / 5) := by positivity
    have h2 : (0 : ℚ) ≤ (if longSentenceSignal t then (1 : ℚ) / 10 else 0) := by
      split <;> norm_num
    have h3 : (0 : ℚ) ≤ (if repetitionSignal t then (1 : ℚ) / 10 else 0) := by
      split <;> norm_num
    linarith
  split <;> constructor <;> linarith

/-- The pattern-based classification is `ai` or `human`, and it is
`ai` exactly when the probability exceeds 0.5. -/
theorem patterns_class (t : Text) :
    ((detectAIWithPatterns t).classification = .ai
      ∨ (detectAIWithPatterns t).classification = .human)
    ∧ ((detectAIWithPatterns t).classification = .ai
        ↔ 1 / 2 < (detectAIWithPatterns t).ai_probability)
    ∧ ((detectAIWithPatterns t).classification = .human
        ↔ (detectAIWithPatterns t).ai_probability ≤ 1 / 2) := by
  rw [(patterns_fields t).1, (patterns_fields t).2.1]
  rcases lt_or_le (1 / 2 : ℚ) (ratMin (patScore t) 1) with h | h
  · rw [if_pos h]
    exact ⟨Or.inl rfl, ⟨fun _ => h, fun _ => rfl⟩,
      ⟨fun hc => Classification.noConfusion hc,
       fun hle => absurd h (not_lt.mpr hle)⟩⟩
  · rw [if_neg (not_lt.mpr h)]
    exact ⟨Or.inr rfl,
      ⟨fun hc => Classification.noConfusion hc,
       fun hlt => absurd hlt (not_lt.mpr h)⟩,
      ⟨fun _ => h, fun _ => rfl⟩⟩

/-- The classifications the chain can produce. -/
theorem detectAI_class_cases (o : PrimaryOutcome) (t : Text) :
    (detectAI o t).1.classification = .ai
    ∨ (detectAI o t).1.classification = .human
    ∨ (detectAI o t).1.classification = .insufficientText := by
  unfold detectAI
  split
  · exact Or.inr (Or.inr rfl)
  · unfold detectAIWithGPTZeroFree
    cases o with
    | ok doc =>
      dsimp only
      split
      · exact Or.inl rfl
      · exact Or.inr (Or.inl rfl)
    | rateLimited =>
      rcases (patterns_class t).1 with h | h
      · exact Or.inl h
      · exact Or.inr (Or.inl h)
    | failure =>
      rcases (patterns_class t).1 with h | h
      · exact Or.inl h
      · exact Or.inr (Or.inl h)

/-! ## Claim theorems -/

/-- C4: for every input text whose length is below the minimum
threshold (10 characters), `detect` returns the `insufficient_text`
verdict with probability 0 and makes zero detector calls — no primary
network call and no fallback heuristic. -/
theorem detect_short_circuit (o : PrimaryOutcome) (t : Text)
    (h : t.length < 10) :
    detectAI o t = (skippedVerdict, [])
    ∧ (detectAI o t).1.classification = .insufficientText
    ∧ (detectAI o t).1.ai_probability = 0 := by
  have he : detectAI o t = (skippedVerdict, []) := by
    unfold detectAI; rw [if_pos h]
  exact ⟨he, by rw [he]; rfl, by rw [he]; rfl⟩

/-- Witness for C4 at the 5-character text "short" with a failing
primary detector. -/
theorem detect_short_circuit_witness :
    ("short".toList).length < 10
    ∧ detectAI .failure "short".toList = (skippedVerdict, []) :=
  ⟨by decide, (detect_short_circuit .failure "short".toList (by decide)).1⟩

/-- C3: `detect` never propagates an exception to its caller — every
outcome of the primary boundary (success, rate-limit, or any thrown
error, covered by `PrimaryOutcome`) yields a verdict, and that verdict
never has classification `error`; on any primary failure (including
the rate-limit signal) it is exactly the pattern-based fallback's
verdict, whose confidence is the low 0.6. -/
theorem detect_chain_total (o : PrimaryOutcome) (t : Text) :
    (detectAI o t).1.classification ≠ .error
    ∧ ((o = .rateLimited ∨ o = .failure) → ¬ t.length < 10 →
        (detectAI o t).1 = detectAIWithPatterns t
        ∧ (detectAI o t).1.confidence = 3 / 5) := by
  constructor
  · rcases detectAI_class_cases o t with h | h | h <;> rw [h] <;> decide
  · intro ho hlen
    have he : detectAI o t = (detectAIWithPatterns t, [.primary, .fallbackHeuristic]) := by
      unfold detectAI
      rw [if_neg hlen]
      rcases ho with h | h <;> subst h <;> rfl
    rw [he]
    exact ⟨rfl, (patterns_fields t).2.2.1⟩

/-- Witness for C3: an unreachable primary detector on a long-enough
text — the fallback's verdict is returned and is not an `error`. -/
theorem detect_chain_total_witness :
    (detectAI .failure "this is a long enough text".toList).1.classification ≠ .error
    ∧ (detectAI .failure "this is a long enough text".toList).1
        = detectAIWithPatterns "this is a long enough text".toList :=
  ⟨(detect_chain_total .failure "this is a long enough text".toList).1,
   ((detect_chain_total .failure "this is a long enough text".toList).2
      (Or.inr rfl) (by decide)).1⟩

/-- C5: the heuristic detector's probability is the bounded weighted
sum `patScore` — 0.2 per matched AI-disclosure phrase, 0.1 for average
sentence length over the threshold, 0.1 for repetition ratio over the
threshold — capped at 1.0; it lies in [0,1]; and the classification is
`ai` iff the probability strictly exceeds 0.5, otherwise `human`. -/
theorem patterns_scoring (t : Text) :
    (detectAIWithPatterns t).ai_probability = ratMin (patScore t) 1
    ∧ 0 ≤ (detectAIWithPatterns t).ai_probability
    ∧ (detectAIWithPatterns t).ai_probability ≤ 1
    ∧ ((detectAIWithPatterns t).classification = .ai
        ↔ 1 / 2 < (detectAIWithPatterns t).ai_probability)
    ∧ ((detectAIWithPatterns t).classification = .human
        ↔ (detectAIWithPatterns t).ai_probability ≤ 1 / 2) :=
  ⟨(patterns_fields t).1, (patterns_prob_bounds t).1, (patterns_prob_bounds t).2,
   (patterns_class t).2.1, (patterns_class t).2.2⟩

/-- Witness for C5: a text matching exactly three phrases scores
3 × 0.2 = 0.6 > 0.5 and is classified `ai`. -/
theorem patterns_scoring_witness :
    matchedIndicatorCount wAiText = 3
    ∧ (detectAIWithPatterns wAiText).classification = .ai := by
  refine ⟨by decide, (patterns_scoring wAiText).2.2.2.1.mpr ?_⟩
  rw [(patterns_scoring wAiText).1]
  have h1 : matchedIndicatorCount wAiText = 3 := by decide
  have h2 : longSentenceSignal wAiText = false := by decide
  have h3 : repetitionSignal wAiText = false := by decide
  rw [patScore, h1, h2, h3]
  norm_num [ratMin]

/-- C9: the heuristic detector is deterministic — its only mutable
state, the `lastIndex` of the `g`-flagged regex objects, is created
afresh inside every call (src:203-214), so the result is a pure
function of the input text and two calls on equal texts agree in
probability, classification and `indicators_found`, regardless of
earlier calls. -/
theorem patterns_deterministic (t1 t2 : Text) (h : t1 = t2) :
    (detectAIWithPatterns t1).ai_probability = (detectAIWithPatterns t2).ai_probability
    ∧ (detectAIWithPatterns t1).classification = (detectAIWithPatterns t2).classification
    ∧ (detectAIWithPatterns t1).indicators_found = (detectAIWithPatterns t2).indicators_found := by
  subst h
  exact ⟨rfl, rfl, rfl⟩

/-- Witness for C9 at a concrete repeated call. -/
theorem patterns_deterministic_witness :
    (detectAIWithPatterns "hello world".toList).ai_probability
      = (detectAIWithPatterns "hello world".toList).ai_probability
    ∧ (detectAIWithPatterns "hello world".toList).classification
      = (detectAIWithPatterns "hello world".toList).classification
    ∧ (detectAIWithPatterns "hello world".toList).indicators_found
      = (detectAIWithPatterns "hello world".toList).indicators_found :=
  patterns_deterministic "hello world".toList "hello world".toList rfl

/-- Annotating a segment changes nothing but its attached verdict. -/
theorem eraseDet_processSegment (det : Text → Except String Verdict) (s : Segment) :
    eraseDet (processSegment det s) = eraseDet s := by
  rcases h : det s.text with m | v <;> simp [processSegment, h, eraseDet]

/-- Every annotated segment carries a verdict. -/
theorem processSegment_isSome (det : Text → Except String Verdict) (s : Segment) :
    (processSegment det s).ai_detection.isSome := by
  rcases h : det s.text with m | v <;> simp [processSegment, h]

/-- C2: `annotate` preserves segment count and order for any input
transcript and any detector behavior: a transcript without a segment
array is returned unchanged, one with zero segments is returned
unchanged, and otherwise the output segment list has the same length
and, verdicts aside, the same elements in the same order, with every
output segment carrying a verdict; when every detector call throws,
every segment receives a verdict classified `error` instead of being
dropped. -/
theorem processTranscript_preserves (det : Text → Except String Verdict)
    (t : Transcript) :
    (t.segments = none → processTranscript det t = t)
    ∧ (t.segments = some [] → processTranscript det t = t)
    ∧ (∀ segs, t.segments = some segs → ∃ segs',
        (processTranscript det t).segments = some segs'
        ∧ segs'.length = segs.length
        ∧ segs'.map eraseDet = segs.map eraseDet
        ∧ (∀ s ∈ segs', s.ai_detection.isSome)
        ∧ ((∀ txt, ∃ m, det txt = Except.error m) →
            ∀ s ∈ segs', s.ai_detection.map Verdict.classification
              = some Classification.error)) := by
  refine ⟨fun h => ?_, fun h => ?_, fun segs h => ?_⟩
  · unfold processTranscript
    rw [h]
  · cases t with
    | mk tsegs tmeta =>
      dsimp at h
      subst h
      rfl
  · refine ⟨segs.map (processSegment det), ?_, by simp, ?_, ?_, ?_⟩
    · simp [processTranscript, h]
    · rw [List.map_map]
      have hfun : eraseDet ∘ processSegment det = eraseDet :=
        funext (eraseDet_processSegment det)
      rw [hfun]
    · intro s hs
      rcases List.mem_map.1 hs with ⟨a, _, rfl⟩
      exact processSegment_isSome det a
    · intro hfail s hs
      rcases List.mem_map.1 hs with ⟨a, _, rfl⟩
      rcases hfail a.text with ⟨m, hm⟩
      simp [processSegment, hm, errorVerdict]

/-- Witness for C2: a two-segment transcript under an always-throwing
detector — both segments survive and both carry `error` verdicts. -/
theorem processTranscript_preserves_witness :
    ((processTranscript wFailDet wTranscript).segments.map List.length) = some 2
    ∧ ((processTranscript wFailDet wTranscript).segments.getD []).all
        (fun s => s.ai_detection.map Verdict.classification
          == some Classification.error) = true := by
  obtain ⟨segs', hsome, hlen, _, _, herr⟩ :=
    (processTranscript_preserves wFailDet wTranscript).2.2
      [mkSeg "furthermore this is a test".toList, mkSeg "hello there".toList] rfl
  constructor
  · rw [hsome]
    simp [hlen]
  · rw [hsome]
    simp only [Option.getD]
    refine List.all_eq_true.mpr ?_
    intro s hs
    have h := herr (fun txt => ⟨"boom", rfl⟩) s hs
    simp [h]

/-- Bounds of the JS `x || d` read of an optional probability field. -/
theorem jsOr_bounds (x : Option ℚ) (d : ℚ) (hx : ∀ q ∈ x, 0 ≤ q ∧ q ≤ 1)
    (hd : 0 ≤ d ∧ d ≤ 1) : 0 ≤ jsOr x d ∧ jsOr x d ≤ 1 := by
  cases x with
  | none => simpa [jsOr] using hd
  | some q =>
    by_cases hq : q = 0
    · simpa [jsOr, hq] using hd
    · simpa [jsOr, hq] using hx q (Option.mem_def.mpr rfl)

/-- C10: for every text at or above the minimum threshold — including
one with no sentence-terminating punctuation and no non-whitespace
content, where the source's average-sentence-length computation
divides by zero — the chain returns a verdict whose probability lies
in [0,1] and whose classification is `ai` or `human`, for every
primary outcome within the hosted detector's declared contract
(failures unconstrained, reported probabilities in [0,1]). -/
theorem detect_safe_above_threshold (o : PrimaryOutcome) (t : Text)
    (hlen : ¬ t.length < 10) (hconf : outcomeConformant o) :
    0 ≤ (detectAI o t).1.ai_probability
    ∧ (detectAI o t).1.ai_probability ≤ 1
    ∧ ((detectAI o t).1.classification = .ai
        ∨ (detectAI o t).1.classification = .human) := by
  unfold detectAI
  rw [if_neg hlen]
  cases o with
  | ok doc =>
    have hp : (detectAIWithGPTZeroFree (.ok doc) t).1.ai_probability
        = jsOr (doc.bind (fun d => d.average_generated_prob)) 0 := rfl
    have hcl : (detectAIWithGPTZeroFree (.ok doc) t).1.classification
        = (if (doc.bind (fun d => d.completely_generated_prob)).getD 0 > 1 / 2
           then Classification.ai else .human) := rfl
    have hx : ∀ q ∈ doc.bind (fun d => d.average_generated_prob), 0 ≤ q ∧ q ≤ 1 := by
      cases doc with
      | none => intro q hq; cases hq
      | some d => intro q hq; exact hconf q hq
    have hb := jsOr_bounds _ 0 hx (by norm_num)
    refine ⟨by rw [hp]; exact hb.1, by rw [hp]; exact hb.2, ?_⟩
    rw [hcl]
    split
    · exact Or.inl rfl
    · exact Or.inr rfl
  | rateLimited =>
    exact ⟨(patterns_prob_bounds t).1, (patterns_prob_bounds t).2, (patterns_class t).1⟩
  | failure =>
    exact ⟨(patterns_prob_bounds t).1, (patterns_prob_bounds t).2, (patterns_class t).1⟩

/-- Witness for C10: ten spaces — the sentence list is empty (the
division-by-zero case) and the fallback runs because the primary is
unreachable; the verdict is still in range and classified. -/
theorem detect_safe_above_threshold_witness :
    sentencesOf wBlankText = []
    ∧ ¬ wBlankText.length < 10
    ∧ 0 ≤ (detectAI .failure wBlankText).1.ai_probability
    ∧ (detectAI .failure wBlankText).1.ai_probability ≤ 1
    ∧ ((detectAI .failure wBlankText).1.classification = .ai
        ∨ (detectAI .failure wBlankText).1.classification = .human) := by
  obtain ⟨h1, h2, h3⟩ :=
    detect_safe_above_threshold .failure wBlankText (by decide) trivial
  exact ⟨by decide, by decide, h1, h2, h3⟩

/-- C7: `getStatus` never fails — an id with no terminal record
(including a never-submitted id) gets the `processing` response, and
an id with a terminal record gets that record's state and
timestamp. -/
theorem getStatus_spec (st : Store) (id : String) :
    (st id = none →
      getStatus st id
        = { job_id := id, status := .processing, timestamp := none, progress := 25 })
    ∧ (∀ r, st id = some r →
        (getStatus st id).job_id = id
        ∧ (getStatus st id).timestamp = some r.timestamp
        ∧ (r.status = .completed → (getStatus st id).status = .completed)
        ∧ (r.status = .failed → (getStatus st id).status = .failed)) := by
  constructor
  · intro h
    unfold getStatus
    rw [h]
  · intro r h
    unfold getStatus
    rw [h]
    refine ⟨rfl, rfl, fun hc => ?_, fun hf => ?_⟩
    · simp [hc]
    · simp [hf]

/-- Witness for C7: an unknown id reports `processing`; an id with a
failed record reports `failed` with the record's timestamp. -/
theorem getStatus_spec_witness :
    getStatus emptyStore "unknown-id"
      = { job_id := "unknown-id", status := .processing, timestamp := none, progress := 25 }
    ∧ (getStatus (putRecord emptyStore "b" (failedRecord "b" "ts" "u" "msg")) "b").status
        = .failed
    ∧ (getStatus (putRecord emptyStore "b" (failedRecord "b" "ts" "u" "msg")) "b").timestamp
        = some "ts" := by
  refine ⟨(getStatus_spec emptyStore "unknown-id").1 rfl, ?_, ?_⟩
  · exact ((getStatus_spec (putRecord emptyStore "b" (failedRecord "b" "ts" "u" "msg")) "b").2
      (failedRecord "b" "ts" "u" "msg") rfl).2.2.2 rfl
  · exact ((getStatus_spec (putRecord emptyStore "b" (failedRecord "b" "ts" "u" "msg")) "b").2
      (failedRecord "b" "ts" "u" "msg") rfl).2.1

/-- C8: a stage failure aborts every later stage — the run stops at
the failing stage and writes the failed record carrying the first
failure's error description, and that record has state `failed`, an
`error` field, and no transcript, artifact paths or summary. -/
theorem analyzeVideo_failure_aborts (env : PipelineEnv) (id ts url m : String) :
    (env.screenshot = .error m →
      analyzeVideo env id ts url = (failedRecord id ts url m, [.screenshot]))
    ∧ (env.screenshot = .ok () → env.audio = .error m →
      analyzeVideo env id ts url = (failedRecord id ts url m, [.screenshot, .audio]))
    ∧ (env.screenshot = .ok () → env.audio = .ok () → env.transcribe = .error m →
      analyzeVideo env id ts url
        = (failedRecord id ts url m, [.screenshot, .audio, .transcribe]))
    ∧ (failedRecord id ts url m).status = .failed
    ∧ (failedRecord id ts url m).error = some m
    ∧ (failedRecord id ts url m).transcript = none
    ∧ (failedRecord id ts url m).screenshot_path = none
    ∧ (failedRecord id ts url m).audio_path = none
    ∧ (failedRecord id ts url m).processing_summary = none := by
  refine ⟨fun h1 => ?_, fun h1 h2 => ?_, fun h1 h2 h3 => ?_, rfl, rfl, rfl, rfl, rfl, rfl⟩
  · unfold analyzeVideo
    rw [h1]
  · unfold analyzeVideo
    rw [h1, h2]
  · unfold analyzeVideo
    rw [h1, h2, h3]

/-- Witness for C8: a run whose screenshot stage fails stops after
that stage and records the screenshot failure. -/
theorem analyzeVideo_failure_aborts_witness :
    analyzeVideo wEnvShotFail "b" "ts" "u"
      = (failedRecord "b" "ts" "u" "Failed to take screenshot: timeout", [.screenshot]) :=
  (analyzeVideo_failure_aborts wEnvShotFail "b" "ts" "u"
    "Failed to take screenshot: timeout").1 rfl

/-- Counting two mutually exclusive predicates never exceeds the
length. -/
theorem countP_add_countP_le {α : Type} (p q : α → Bool)
    (hpq : ∀ a, ¬(p a = true ∧ q a = true)) :
    ∀ l : List α, l.countP p + l.countP q ≤ l.length := by
  intro l
  induction l with
  | nil => simp
  | cons a tl ih =>
    rw [List.countP_cons, List.countP_cons, List.length_cons]
    by_cases hp : p a
    · by_cases hq : q a
      · exact absurd ⟨hp, hq⟩ (hpq a)
      · simp [hp, hq]
        omega
    · by_cases hq : q a <;> simp [hp, hq] <;> omega

/-- No segment is counted both `ai` and `human`. -/
theorem isClassified_disjoint (s : Segment) :
    ¬(isClassified .ai s = true ∧ isClassified .human s = true) := by
  rintro ⟨ha, hh⟩
  unfold isClassified at ha hh
  cases had : s.ai_detection with
  | none => rw [had] at ha; cases ha
  | some v =>
    rw [had] at ha hh
    rw [beq_iff_eq] at ha hh
    rw [ha] at hh
    exact Classification.noConfusion hh

/-- The summary of a transcript with a segment list: the total is the
segment count and the `ai`/`human` counts sum to at most the total. -/
theorem mkSummary_bounds (t : Transcript) (segs : List Segment)
    (h : t.segments = some segs) :
    (mkSummary t).total_segments = segs.length
    ∧ (mkSummary t).ai_segments + (mkSummary t).human_segments
        ≤ (mkSummary t).total_segments := by
  have h1 : (mkSummary t).total_segments = segs.length := by
    simp [mkSummary, h]
  have h2 : (mkSummary t).ai_segments = segs.countP (isClassified .ai) := by
    simp [mkSummary, h]
  have h3 : (mkSummary t).human_segments = segs.countP (isClassified .human) := by
    simp [mkSummary, h]
  refine ⟨h1, ?_⟩
  rw [h1, h2, h3]
  exact countP_add_countP_le _ _ isClassified_disjoint segs

/-- C1 is refuted by the code: the handler answers the caller with one
fresh uuid (src:502) but `analyzeVideo` keys the terminal record by a
second uuid of its own (src:337-342), so `getResult` at the returned
id answers `NotFound` both before and — the bug — forever after the
pipeline completes, while the record (which does satisfy the claimed
summary properties) sits under an id the caller never saw. -/
theorem returned_id_never_resolves (env : PipelineEnv) (id1 id2 ts url : String)
    (st : Store) (hne : id1 ≠ id2) (hfresh : st id1 = none) :
    getResult st id1 = .notFound
    ∧ getResult (runBackground env id2 ts url st) id1 = .notFound
    ∧ getResult (runBackground env id2 ts url st) id2
        = .found (analyzeVideo env id2 ts url).1
    ∧ (∀ tr segs, env.screenshot = .ok () → env.audio = .ok () →
        env.transcribe = .ok tr → tr.segments = some segs →
        (analyzeVideo env id2 ts url).1.status = .completed
        ∧ ∃ sm, (analyzeVideo env id2 ts url).1.processing_summary = some sm
            ∧ sm.total_segments = segs.length
            ∧ sm.ai_segments + sm.human_segments ≤ sm.total_segments) := by
  refine ⟨?_, ?_, ?_, ?_⟩
  · unfold getResult
    rw [hfresh]
  · unfold getResult runBackground putRecord
    rw [if_neg hne, hfresh]
  · unfold getResult runBackground putRecord
    rw [if_pos rfl]
  · intro tr segs h1 h2 h3 h4
    have hseg : (processTranscript
        (fun txt => Except.ok (detectAI (env.primary txt) txt).1) tr).segments
        = some (segs.map (processSegment
            (fun txt => Except.ok (detectAI (env.primary txt) txt).1))) := by
      simp [processTranscript, h4]
    obtain ⟨htot, hsum⟩ := mkSummary_bounds _ _ hseg
    refine ⟨?_, mkSummary (processTranscript
        (fun txt => Except.ok (detectAI (env.primary txt) txt).1) tr), ?_, ?_, hsum⟩
    · simp only [analyzeVideo, h1, h2, h3]
    · simp only [analyzeVideo, h1, h2, h3]
    · rw [htot, List.length_map]

/-- Witness for C1's refutation: a fully successful pipeline run,
after which the id returned at submission still resolves to
`NotFound`. -/
theorem returned_id_never_resolves_witness :
    getResult emptyStore "id-a" = .notFound
    ∧ getResult (runBackground wEnvOk "id-b" "ts" "u" emptyStore) "id-a" = .notFound
    ∧ getResult (runBackground wEnvOk "id-b" "ts" "u" emptyStore) "id-b"
        = .found (analyzeVideo wEnvOk "id-b" "ts" "u").1 := by
  obtain ⟨h1, h2, h3, _⟩ :=
    returned_id_never_resolves wEnvOk "id-a" "id-b" "ts" "u" emptyStore
      (by decide) rfl
  exact ⟨h1, h2, h3⟩

/-- C6 counterexample: the URL `http://youtube.com/watch?v=dQw4w9WgXcQ`
fails the claim's spelled grammar (whose scheme is literally `https`),
yet the handler accepts it and schedules background work (here with
the external accessibility check accepting, as ytdl-core does for this
URL): the code's regexes accept `http` as well. -/
theorem submit_grammar_cx :
    specLinkShape "http://youtube.com/watch?v=dQw4w9WgXcQ".toList = false
    ∧ validateYouTubeUrl "http://youtube.com/watch?v=dQw4w9WgXcQ".toList = true
    ∧ analyzeHandler (fun _ => true) "j1" "http://youtube.com/watch?v=dQw4w9WgXcQ"
        = (.accepted "j1", true) := by
  refine ⟨by decide, by decide, by decide⟩

/-- C6 (amended): the handler accepts exactly the non-empty URLs that
pass the code's link-shape check (`https?`, prefix match) and the
external ytdl accessibility check; background work is scheduled
exactly on acceptance; and every URL failing the link-shape check is
rejected with no background work. -/
theorem submit_validation (ytdl : String → Bool) (id1 url : String) :
    ((analyzeHandler ytdl id1 url).1 = .accepted id1
      ↔ (url ≠ "" ∧ validateYouTubeUrl url.toList = true ∧ ytdl url = true))
    ∧ ((analyzeHandler ytdl id1 url).2 = true
      ↔ (analyzeHandler ytdl id1 url).1 = .accepted id1)
    ∧ (validateYouTubeUrl url.toList = false →
        (analyzeHandler ytdl id1 url).2 = false
        ∧ ∀ j, (analyzeHandler ytdl id1 url).1 ≠ .accepted j) := by
  unfold analyzeHandler
  by_cases h1 : url = ""
  · simp [h1]
  · by_cases h2 : validateYouTubeUrl url.toList
    · have h2d : validateYouTubeUrl url.data = true := h2
      by_cases h3 : ytdl url
      · simp [h1, h2, h2d, h3]
      · simp [h1, h2, h2d, h3]
    · have h2d : ¬ validateYouTubeUrl url.data = true := h2
      simp [h1, h2, h2d]

/-- Witness for the amended C6: a grammar-passing URL is accepted when
the external check passes and rejected without background work when it
fails. -/
theorem submit_validation_witness :
    (analyzeHandler (fun _ => true) "j2" "https://youtu.be/dQw4w9WgXcQ").1
      = .accepted "j2"
    ∧ (analyzeHandler (fun _ => false) "j2" "https://youtu.be/dQw4w9WgXcQ").2
      = false := by
  constructor
  · exact (submit_validation (fun _ => true) "j2" "https://youtu.be/dQw4w9WgXcQ").1.mpr
      ⟨by decide, by decide, rfl⟩
  · have hne : (analyzeHandler (fun _ => false) "j2" "https://youtu.be/dQw4w9WgXcQ").1
        ≠ .accepted "j2" := by
      intro hacc
      have hx := (submit_validation (fun _ => false) "j2"
        "https://youtu.be/dQw4w9WgXcQ").1.mp hacc
      exact absurd hx.2.2 (by decide)
    cases hb : (analyzeHandler (fun _ => false) "j2" "https://youtu.be/dQw4w9WgXcQ").2
    · rfl
    · exact absurd ((submit_validation (fun _ => false) "j2"
        "https://youtu.be/dQw4w9WgXcQ").2.1.mp hb) hne

end YTA
